import Mathlib

/-!
Shallow embedding of the IBM App Configuration Python client SDK
(files `appconfiguration.py`, `configurations/models/feature.py`,
`configurations/internal/utils/api_manager.py`,
`core/internal/api_exception.py`) together with proofs of the
specification claims about it.

Python dictionaries with JSON-like payloads are modelled as association
lists of `PyValue`s; the mutable singleton facade is modelled as explicit
state passing over `AppConfigState`; logging is modelled by accumulating
the logged messages in the state / in an extra result component.
-/

mutual
/-- A JSON-like Python value as it appears in configuration payloads.
`pyNone` is Python `None`; `objDefault` stands for the class `object`,
the default Python `feature.py` uses for `disabled_value`/`enabled_value`. -/
inductive PyValue where
  | pyNone : PyValue
  | bool : Bool → PyValue
  | str : String → PyValue
  | int : Int → PyValue
  | list : PyList → PyValue
  | objDefault : PyValue
  deriving Repr, DecidableEq

/-- A Python list of `PyValue`s (mutual with `PyValue` so that equality
stays decidable). -/
inductive PyList where
  | nil : PyList
  | cons : PyValue → PyList → PyList
  deriving Repr, DecidableEq
end

/-- A Python dict with string keys, as an association list (keys unique in use). -/
abbrev PyDict := List (String × PyValue)

/-- Python `d.get(k)`: the value when the key is present, else `None`.
(A key present with value `None` also yields `None`, as in Python.) -/
def pyGet (d : PyDict) (k : String) : PyValue :=
  match d.lookup k with
  | some v => v
  | none => PyValue.pyNone

/-- Python `d.get(k, default)`: the stored value when the key is present
(even when that value is `None`), else the default. -/
def pyGetD (d : PyDict) (k : String) (dflt : PyValue) : PyValue :=
  match d.lookup k with
  | some v => v
  | none => dflt

/-- Modelled from the spec: the `ConfigurationType` enum
(`configurations/models/configuration_type.py` is not among the sources);
the spec fixes its members to BOOLEAN, STRING and NUMERIC. -/
inductive ConfigurationType where
  | BOOLEAN : ConfigurationType
  | STRING : ConfigurationType
  | NUMERIC : ConfigurationType
  deriving Repr, DecidableEq

/-- Modelled from the spec: the Python enum constructor
`ConfigurationType(v)` looks a raw payload value up among the members and
raises `ValueError` (here: `none`) when it is not one of them. -/
def ConfigurationType.ofValue : PyValue → Option ConfigurationType
  | PyValue.str "BOOLEAN" => some ConfigurationType.BOOLEAN
  | PyValue.str "STRING" => some ConfigurationType.STRING
  | PyValue.str "NUMERIC" => some ConfigurationType.NUMERIC
  | _ => none

/-- The `Feature` record built by `Feature.__init__` in
`configurations/models/feature.py` (lines 27-38). -/
structure Feature where
  enabled : PyValue
  name : PyValue
  feature_id : PyValue
  segment_rules : PyValue
  feature_data : PyDict
  type : ConfigurationType
  disabled_value : PyValue
  enabled_value : PyValue
  deriving Repr, DecidableEq

/-- Python `Feature.__init__(feature_list)` (feature.py lines 27-38): each field is
read with `dict.get` and its default; the `type` field goes through the
`ConfigurationType` enum constructor, with `NUMERIC` substituted when the
payload value is absent or `None`.  `none` models the `ValueError` the enum
constructor raises on an unknown type value. -/
def Feature.make (feature_list : PyDict) : Option Feature :=
  let t := pyGet feature_list "type"
  let ty := if t = PyValue.pyNone then some ConfigurationType.NUMERIC
            else ConfigurationType.ofValue t
  match ty with
  | none => none
  | some ty =>
    some { enabled := pyGetD feature_list "enabled" (PyValue.bool false)
           name := pyGetD feature_list "name" (PyValue.str "")
           feature_id := pyGetD feature_list "feature_id" (PyValue.str "")
           segment_rules := pyGetD feature_list "segment_rules" (PyValue.list PyList.nil)
           feature_data := feature_list
           type := ty
           disabled_value := pyGetD feature_list "disabled_value" PyValue.objDefault
           enabled_value := pyGetD feature_list "enabled_value" PyValue.objDefault }

/-- The error message logged by `Feature.get_current_value` (feature.py line 78). -/
def ENTITY_ID_ERROR : String := "A valid entity id should be passed for this method."

/-- Result of a call to `Feature.get_current_value`: the feature object as it
is after the call, the returned value, the messages logged during the call,
and whether the evaluation handler (`ConfigurationHandler.feature_evaluation`)
was invoked. -/
structure GetCurrentValueResult where
  feature : Feature
  result : Option PyValue
  logged : List String
  handlerInvoked : Bool
  deriving Repr, DecidableEq

/-- Python `Feature.get_current_value(entity_id, entity_attributes)` (feature.py
lines 68-82).  The Python guard `if not entity_id or entity_id == ""` fires
exactly when `entity_id` is `None` or the empty string; otherwise the call
delegates to the evaluation handler, which is passed in as `handler`
(its code, `configuration_handler.py`, is not among the sources). -/
def Feature.get_current_value
    (handler : Feature → String → PyDict → Option PyValue)
    (f : Feature) (entity_id : Option String) (entity_attributes : PyDict) :
    GetCurrentValueResult :=
  match entity_id with
  | none =>
    { feature := f, result := none, logged := [ENTITY_ID_ERROR], handlerInvoked := false }
  | some s =>
    if s = "" then
      { feature := f, result := none, logged := [ENTITY_ID_ERROR], handlerInvoked := false }
    else
      { feature := f, result := handler f s entity_attributes
        logged := [], handlerInvoked := true }

/-- C1: with an absent or empty entity id, `get_current_value` logs the
error, returns `None`, leaves the feature unchanged and never invokes the
evaluation handler. -/
theorem c1_get_current_value_invalid_entity
    (handler : Feature → String → PyDict → Option PyValue)
    (f : Feature) (entity_id : Option String) (entity_attributes : PyDict)
    (h : entity_id = none ∨ entity_id = some "") :
    Feature.get_current_value handler f entity_id entity_attributes =
      { feature := f, result := none, logged := [ENTITY_ID_ERROR]
        handlerInvoked := false } := by
  rcases h with h | h <;> subst h <;> simp [Feature.get_current_value]

/-- Witness for C1 at a concrete feature and `entity_id = None`. -/
theorem c1_witness :
    Feature.get_current_value (fun _ _ _ => some (PyValue.bool true))
      { enabled := PyValue.bool true, name := PyValue.str "f1"
        feature_id := PyValue.str "f1", segment_rules := PyValue.list PyList.nil
        feature_data := [], type := ConfigurationType.BOOLEAN
        disabled_value := PyValue.bool false, enabled_value := PyValue.bool true }
      none [] =
      { feature := { enabled := PyValue.bool true, name := PyValue.str "f1"
                     feature_id := PyValue.str "f1", segment_rules := PyValue.list PyList.nil
                     feature_data := [], type := ConfigurationType.BOOLEAN
                     disabled_value := PyValue.bool false
                     enabled_value := PyValue.bool true }
        result := none, logged := [ENTITY_ID_ERROR], handlerInvoked := false } :=
  c1_get_current_value_invalid_entity _ _ none [] (Or.inl rfl)

/-- The `Feature` record that `Feature.__init__` builds from an empty payload
dictionary: every optional field takes its default. -/
def defaultFeature : Feature :=
  { enabled := PyValue.bool false, name := PyValue.str ""
    feature_id := PyValue.str "", segment_rules := PyValue.list PyList.nil
    feature_data := [], type := ConfigurationType.NUMERIC
    disabled_value := PyValue.objDefault, enabled_value := PyValue.objDefault }

/-- C5: `Feature.__init__` applies the documented defaults for absent
optional fields (`enabled` ↦ `False`, `segment_rules` ↦ `[]`, `type` ↦
NUMERIC when absent or `None`, `name`/`feature_id` ↦ `''`) and keeps a
present field's payload value unchanged. -/
theorem c5_feature_make_defaults (d : PyDict) (f : Feature)
    (h : Feature.make d = some f) :
    (d.lookup "enabled" = none → f.enabled = PyValue.bool false) ∧
    (∀ v, d.lookup "enabled" = some v → f.enabled = v) ∧
    (d.lookup "segment_rules" = none → f.segment_rules = PyValue.list PyList.nil) ∧
    (∀ v, d.lookup "segment_rules" = some v → f.segment_rules = v) ∧
    ((d.lookup "type" = none ∨ d.lookup "type" = some PyValue.pyNone) →
       f.type = ConfigurationType.NUMERIC) ∧
    (d.lookup "name" = none → f.name = PyValue.str "") ∧
    (∀ v, d.lookup "name" = some v → f.name = v) ∧
    (d.lookup "feature_id" = none → f.feature_id = PyValue.str "") ∧
    (∀ v, d.lookup "feature_id" = some v → f.feature_id = v) := by
  rcases hm : (if pyGet d "type" = PyValue.pyNone then some ConfigurationType.NUMERIC
               else ConfigurationType.ofValue (pyGet d "type")) with _ | ty
  · simp only [Feature.make, hm] at h
    exact Option.noConfusion h
  · simp only [Feature.make, hm, Option.some.injEq] at h
    subst h
    refine ⟨fun hx => by simp [pyGetD, hx],
            fun v hx => by simp [pyGetD, hx],
            fun hx => by simp [pyGetD, hx],
            fun v hx => by simp [pyGetD, hx],
            fun hx => ?_,
            fun hx => by simp [pyGetD, hx],
            fun v hx => by simp [pyGetD, hx],
            fun hx => by simp [pyGetD, hx],
            fun v hx => by simp [pyGetD, hx]⟩
    have hcond : pyGet d "type" = PyValue.pyNone := by
      rcases hx with hx | hx <;> simp [pyGet, hx]
    rw [if_pos hcond] at hm
    simpa using hm.symm

/-- Witness for C5: from the empty payload, construction succeeds and yields
all the defaults. -/
theorem c5_witness :
    Feature.make [] = some defaultFeature ∧
    defaultFeature.enabled = PyValue.bool false ∧
    defaultFeature.type = ConfigurationType.NUMERIC :=
  ⟨rfl,
   (c5_feature_make_defaults [] defaultFeature rfl).1 rfl,
   (c5_feature_make_defaults [] defaultFeature rfl).2.2.2.2.1 (Or.inl rfl)⟩

/-- Error message constants from `configurations/internal/common/config_messages.py`
(the module itself is not among the sources; only the distinctness of the
messages matters here). -/
def REGION_ERROR : String := "Provide a valid region in App Configuration init"

/-- Message `config_messages.APIKEY_ERROR`. -/
def APIKEY_ERROR : String := "Provide a valid apiKey in App Configuration init"

/-- Message `config_messages.GUID_ERROR`. -/
def GUID_ERROR : String := "Provide a valid guid in App Configuration init"

/-- Message `config_messages.COLLECTION_INIT_ERROR`. -/
def COLLECTION_INIT_ERROR : String :=
  "Invalid action. You can perform this action only after a successful initialization and setting the context."

/-- Message `config_messages.COLLECTION_ID_VALUE_ERROR`. -/
def COLLECTION_ID_VALUE_ERROR : String := "Provide a valid collection_id"

/-- Message `config_messages.ENVIRONMENT_ID_VALUE_ERROR`. -/
def ENVIRONMENT_ID_VALUE_ERROR : String := "Provide a valid environment_id"

/-- Message `config_messages.CONFIGURATION_FILE_NOT_FOUND_ERROR`. -/
def CONFIGURATION_FILE_NOT_FOUND_ERROR : String :=
  "Provide configuration_file value when live_config_update_enabled is false"

/-- Modelled from the spec: `Validators.validate_string`
(`configurations/internal/utils/validators.py` is not among the sources);
the spec requires credentials and ids to be non-empty strings, so a value
is valid exactly when it is a string and non-empty.  Python `None` is
modelled by `none`. -/
def validate_string : Option String → Bool
  | none => false
  | some s => !(s == "")

/-- Modelled from the spec: a `Property` record of the Entity Model
(`configurations/models/property.py` is not among the sources).  Only its
identity and value are needed by the claims about the read paths. -/
structure PropertyRec where
  property_id : String
  value : PyValue
  deriving Repr, DecidableEq

/-- Modelled from the spec: a configuration snapshot, the atomic unit of
cache replacement, holding the features and properties of one
collection/environment pair. -/
structure Snapshot where
  features : List (String × Feature)
  properties : List (String × PropertyRec)
  deriving Repr, DecidableEq

/-- Modelled from the spec: the observable state of the
`ConfigurationHandler` singleton (`configurations/configuration_handler.py`
is not among the sources): the bound context/update source and the
currently cached snapshot (`none` before the first successful load). -/
structure CHState where
  contextSet : Bool
  collection_id : String
  environment_id : String
  configuration_file : Option String
  live_config_update_enabled : Bool
  snapshot : Option Snapshot
  deriving Repr, DecidableEq

/-- Modelled from the spec: a freshly initialised `ConfigurationHandler`
holds no snapshot and no bound context. -/
def CHState.fresh : CHState :=
  { contextSet := false, collection_id := "", environment_id := ""
    configuration_file := none, live_config_update_enabled := true
    snapshot := none }

/-- Modelled from the spec: `ConfigurationHandler.set_context` binds the
collection, environment and update source for the session. -/
def CHState.set_context (h : CHState) (cid eid : String)
    (file : Option String) (live : Bool) : CHState :=
  { h with contextSet := true, collection_id := cid, environment_id := eid
           configuration_file := file, live_config_update_enabled := live }

/-- Modelled from the spec: `ConfigurationHandler.load_data` performs one
fetch-parse-replace cycle; on success the snapshot is replaced, on failure
(`fetch` returns `none`) the previous snapshot is retained.  The update
source is abstracted as the `fetch` argument. -/
def CHState.load_data (fetch : CHState → Option Snapshot) (h : CHState) : CHState :=
  match fetch h with
  | some snap => { h with snapshot := some snap }
  | none => h

/-- Modelled from the spec: the Configuration Cache lookup
`ConfigurationHandler.get_feature` returns the "not found" sentinel when no
snapshot is loaded or the id is unknown. -/
def CHState.get_feature (h : CHState) (feature_id : String) : Option Feature :=
  match h.snapshot with
  | some snap => snap.features.lookup feature_id
  | none => none

/-- Modelled from the spec: `ConfigurationHandler.get_features` returns the
feature map of the current snapshot, or the absence sentinel when no
snapshot is loaded. -/
def CHState.get_features (h : CHState) : Option (List (String × Feature)) :=
  match h.snapshot with
  | some snap => some snap.features
  | none => none

/-- Modelled from the spec: `ConfigurationHandler.get_property`, as
`CHState.get_feature`. -/
def CHState.get_property (h : CHState) (property_id : String) : Option PropertyRec :=
  match h.snapshot with
  | some snap => snap.properties.lookup property_id
  | none => none

/-- Modelled from the spec: `ConfigurationHandler.get_properties`, as
`CHState.get_features`. -/
def CHState.get_properties (h : CHState) : Option (List (String × PropertyRec)) :=
  match h.snapshot with
  | some snap => some snap.properties
  | none => none

/-- The state of the `AppConfiguration` facade instance
(`appconfiguration.py`): field-for-field the attributes set in
`AppConfiguration.__init__` (lines 58-71), with Python names
`__apikey`, `__region`, `__guid`, `__configuration_handler_instance`,
`__is_initialized`, `__is_initialized_configuration`, `__is_loading`.
`loadCalls` counts the invocations of
`ConfigurationHandler.load_data` (an observation variable), and `logs`
accumulates the messages passed to `Logger.error`. -/
structure AppConfigState where
  apikey : String
  region : String
  guid : String
  handler : Option CHState
  isInitDone : Bool
  isContextDone : Bool
  is_loading : Bool
  loadCalls : Nat
  logs : List String
  deriving Repr, DecidableEq

/-- The facade state right after `AppConfiguration.__init__` (lines 58-71). -/
def acFresh : AppConfigState :=
  { apikey := "", region := "", guid := "", handler := none
    isInitDone := false, isContextDone := false, is_loading := false
    loadCalls := 0, logs := [] }

/-- Python `Logger.error(m)`: append the message to the log. -/
def acLog (s : AppConfigState) (m : String) : AppConfigState :=
  { s with logs := s.logs ++ [m] }

/-- Python `AppConfiguration.__setup_configuration_handler` (lines 170-175):
`ConfigurationHandler.get_instance()` returns the existing singleton (or a
fresh one) and re-initialises it with the stored credentials (the
credentials live outside the modelled `CHState` fields). -/
def acSetupHandler (s : AppConfigState) : AppConfigState :=
  { s with handler := some (s.handler.getD CHState.fresh) }

/-- Python `AppConfiguration.init(region, guid, apikey)` (lines 73-98). -/
def acInit (s : AppConfigState) (region guid apikey : Option String) : AppConfigState :=
  if !(validate_string region) then acLog s REGION_ERROR
  else if !(validate_string apikey) then acLog s APIKEY_ERROR
  else if !(validate_string guid) then acLog s GUID_ERROR
  else
    acSetupHandler
      { s with apikey := apikey.getD "", region := region.getD ""
               guid := guid.getD "", isInitDone := true, is_loading := false }

/-- Python `AppConfiguration.__load_data_now` (lines 177-182): return immediately
when a load is already in flight, otherwise set the loading flag, run one
`ConfigurationHandler.load_data` cycle, and clear the flag.  On every path
reaching this method `handler` is `some` (it is set up by a successful
`init`). -/
def acLoadDataNow (fetch : CHState → Option Snapshot) (s : AppConfigState) : AppConfigState :=
  if s.is_loading then s
  else
    { s with handler := s.handler.map (CHState.load_data fetch)
             loadCalls := s.loadCalls + 1
             is_loading := false }

/-- Python `AppConfiguration.set_context(collection_id, environment_id,
configuration_file, live_config_update_enabled)` (lines 124-161).  Note the
source sets `__is_initialized_configuration = True` (line 153) before the
`live_config_update_enabled`/`configuration_file` check (line 154). -/
def acSetContext (fetch : CHState → Option Snapshot) (s : AppConfigState)
    (collection_id environment_id : Option String)
    (configuration_file : Option String) (live_config_update_enabled : Bool) :
    AppConfigState :=
  if !s.isInitDone then acLog s COLLECTION_INIT_ERROR
  else if !(validate_string collection_id) then acLog s COLLECTION_ID_VALUE_ERROR
  else if !(validate_string environment_id) then acLog s ENVIRONMENT_ID_VALUE_ERROR
  else
    let s1 := { s with isContextDone := true }
    if !live_config_update_enabled && configuration_file.isNone then
      acLog s1 CONFIGURATION_FILE_NOT_FOUND_ERROR
    else
      acLoadDataNow fetch
        { s1 with handler := s1.handler.map (fun h =>
            h.set_context (collection_id.getD "") (environment_id.getD "")
              configuration_file live_config_update_enabled) }

/-- Python `AppConfiguration.fetch_configurations` (lines 163-168). -/
def acFetchConfigurations (fetch : CHState → Option Snapshot)
    (s : AppConfigState) : AppConfigState :=
  if s.isInitDone && s.isContextDone then acLoadDataNow fetch s
  else acLog s COLLECTION_INIT_ERROR

/-- Python `AppConfiguration.get_feature(feature_id)` (lines 195-207), returning
the state after the call (the call may log) and the returned value. -/
def acGetFeature (s : AppConfigState) (feature_id : String) :
    AppConfigState × Option Feature :=
  if s.isInitDone && s.isContextDone then
    (s, s.handler.bind (fun h => h.get_feature feature_id))
  else (acLog s COLLECTION_INIT_ERROR, none)

/-- Python `AppConfiguration.get_features()` (lines 209-218). -/
def acGetFeatures (s : AppConfigState) :
    AppConfigState × Option (List (String × Feature)) :=
  if s.isInitDone && s.isContextDone then
    (s, s.handler.bind CHState.get_features)
  else (acLog s COLLECTION_INIT_ERROR, none)

/-- Python `AppConfiguration.get_property(property_id)` (lines 231-243). -/
def acGetProperty (s : AppConfigState) (property_id : String) :
    AppConfigState × Option PropertyRec :=
  if s.isInitDone && s.isContextDone then
    (s, s.handler.bind (fun h => h.get_property property_id))
  else (acLog s COLLECTION_INIT_ERROR, none)

/-- Python `AppConfiguration.get_properties()` (lines 220-229). -/
def acGetProperties (s : AppConfigState) :
    AppConfigState × Option (List (String × PropertyRec)) :=
  if s.isInitDone && s.isContextDone then
    (s, s.handler.bind CHState.get_properties)
  else (acLog s COLLECTION_INIT_ERROR, none)

/-- C3: when any of region, apikey, guid fails validation, `init` only logs
one error message: the stored credentials, the initialization flag and the
handler all keep their prior values, and no exception escapes (the
embedding is a total function). -/
theorem c3_init_invalid_input (s : AppConfigState) (region guid apikey : Option String)
    (h : validate_string region = false ∨ validate_string apikey = false ∨
         validate_string guid = false) :
    (∃ m, acInit s region guid apikey = { s with logs := s.logs ++ [m] }) ∧
    (acInit s region guid apikey).apikey = s.apikey ∧
    (acInit s region guid apikey).region = s.region ∧
    (acInit s region guid apikey).guid = s.guid ∧
    (acInit s region guid apikey).isInitDone = s.isInitDone ∧
    (acInit s region guid apikey).handler = s.handler := by
  have hmain : ∃ m, acInit s region guid apikey = acLog s m := by
    cases hr : validate_string region with
    | false => exact ⟨REGION_ERROR, by simp [acInit, hr]⟩
    | true =>
      cases ha : validate_string apikey with
      | false => exact ⟨APIKEY_ERROR, by simp [acInit, hr, ha]⟩
      | true =>
        cases hg : validate_string guid with
        | false => exact ⟨GUID_ERROR, by simp [acInit, hr, ha, hg]⟩
        | true => simp [hr, ha, hg] at h
  obtain ⟨m, hm⟩ := hmain
  exact ⟨⟨m, hm⟩, by rw [hm]; rfl, by rw [hm]; rfl, by rw [hm]; rfl,
         by rw [hm]; rfl, by rw [hm]; rfl⟩

/-- Witness for C3: an invalid (absent) region at the fresh facade state. -/
theorem c3_witness :
    (validate_string none = false ∨ validate_string (some "apikey-value") = false ∨
     validate_string (some "guid-value") = false) ∧
    ((∃ m, acInit acFresh none (some "guid-value") (some "apikey-value") =
        { acFresh with logs := acFresh.logs ++ [m] }) ∧
     (acInit acFresh none (some "guid-value") (some "apikey-value")).apikey = acFresh.apikey ∧
     (acInit acFresh none (some "guid-value") (some "apikey-value")).region = acFresh.region ∧
     (acInit acFresh none (some "guid-value") (some "apikey-value")).guid = acFresh.guid ∧
     (acInit acFresh none (some "guid-value") (some "apikey-value")).isInitDone = acFresh.isInitDone ∧
     (acInit acFresh none (some "guid-value") (some "apikey-value")).handler = acFresh.handler) :=
  ⟨Or.inl rfl,
   c3_init_invalid_input acFresh none (some "guid-value") (some "apikey-value") (Or.inl rfl)⟩

/-- C4: before both `init` and `set_context` have completed (at least one of
the two readiness flags is still false), each read logs the collection-init
error and returns the `None` sentinel, and the only state change is that
log entry. -/
theorem c4_reads_before_ready (s : AppConfigState) (feature_id property_id : String)
    (h : s.isInitDone = false ∨ s.isContextDone = false) :
    acGetFeature s feature_id = (acLog s COLLECTION_INIT_ERROR, none) ∧
    acGetFeatures s = (acLog s COLLECTION_INIT_ERROR, none) ∧
    acGetProperty s property_id = (acLog s COLLECTION_INIT_ERROR, none) ∧
    acGetProperties s = (acLog s COLLECTION_INIT_ERROR, none) := by
  have hb : (s.isInitDone && s.isContextDone) = false := by
    rcases h with h | h <;> simp [h]
  exact ⟨by simp [acGetFeature, hb], by simp [acGetFeatures, hb],
         by simp [acGetProperty, hb], by simp [acGetProperties, hb]⟩

/-- Witness for C4 at the fresh (never initialised) facade state. -/
theorem c4_witness :
    (acFresh.isInitDone = false ∨ acFresh.isContextDone = false) ∧
    (acGetFeature acFresh "f1" = (acLog acFresh COLLECTION_INIT_ERROR, none) ∧
     acGetFeatures acFresh = (acLog acFresh COLLECTION_INIT_ERROR, none) ∧
     acGetProperty acFresh "p1" = (acLog acFresh COLLECTION_INIT_ERROR, none) ∧
     acGetProperties acFresh = (acLog acFresh COLLECTION_INIT_ERROR, none)) :=
  ⟨Or.inl rfl, c4_reads_before_ready acFresh "f1" "p1" (Or.inl rfl)⟩

/-- All four facade reads return the `None` sentinel on a state whose
handler holds no snapshot (whatever the readiness flags are). -/
theorem reads_none_of_no_snapshot (s : AppConfigState)
    (hs : ∀ h, s.handler = some h → h.snapshot = none) :
    (∀ fid, (acGetFeature s fid).2 = none) ∧
    (acGetFeatures s).2 = none ∧
    (∀ pid, (acGetProperty s pid).2 = none) ∧
    (acGetProperties s).2 = none := by
  cases hh : s.handler with
  | none =>
    refine ⟨fun fid => ?_, ?_, fun pid => ?_, ?_⟩ <;>
      · simp only [acGetFeature, acGetFeatures, acGetProperty, acGetProperties]
        split <;> simp [hh]
  | some h =>
    have hsnap := hs h hh
    refine ⟨fun fid => ?_, ?_, fun pid => ?_, ?_⟩ <;>
      · simp only [acGetFeature, acGetFeatures, acGetProperty, acGetProperties]
        split <;>
          simp [hh, CHState.get_feature, CHState.get_features,
                CHState.get_property, CHState.get_properties, hsnap]

/-- C2: a `set_context` call with `live_config_update_enabled = False` and
no `configuration_file` logs one error and returns before binding the
update source (`ConfigurationHandler.set_context` is never reached, the
handler state is untouched) and before any load (`load_data` count
unchanged); with no snapshot present beforehand, every subsequent read
returns the `None` sentinel. -/
theorem c2_set_context_no_file (fetch : CHState → Option Snapshot)
    (s : AppConfigState) (cid eid : Option String)
    (hs : ∀ h, s.handler = some h → h.snapshot = none) :
    (∃ m, (acSetContext fetch s cid eid none false).logs = s.logs ++ [m]) ∧
    (acSetContext fetch s cid eid none false).handler = s.handler ∧
    (acSetContext fetch s cid eid none false).loadCalls = s.loadCalls ∧
    (∀ fid, (acGetFeature (acSetContext fetch s cid eid none false) fid).2 = none) ∧
    (acGetFeatures (acSetContext fetch s cid eid none false)).2 = none ∧
    (∀ pid, (acGetProperty (acSetContext fetch s cid eid none false) pid).2 = none) ∧
    (acGetProperties (acSetContext fetch s cid eid none false)).2 = none := by
  have key : ∃ m s1, acSetContext fetch s cid eid none false = acLog s1 m ∧
      s1.handler = s.handler ∧ s1.loadCalls = s.loadCalls ∧ s1.logs = s.logs := by
    cases hI : s.isInitDone with
    | false => exact ⟨COLLECTION_INIT_ERROR, s, by simp [acSetContext, hI], rfl, rfl, rfl⟩
    | true =>
      cases hc : validate_string cid with
      | false =>
        exact ⟨COLLECTION_ID_VALUE_ERROR, s, by simp [acSetContext, hI, hc], rfl, rfl, rfl⟩
      | true =>
        cases he : validate_string eid with
        | false =>
          exact ⟨ENVIRONMENT_ID_VALUE_ERROR, s, by simp [acSetContext, hI, hc, he],
                 rfl, rfl, rfl⟩
        | true =>
          exact ⟨CONFIGURATION_FILE_NOT_FOUND_ERROR, { s with isContextDone := true },
                 by simp [acSetContext, hI, hc, he], rfl, rfl, rfl⟩
  obtain ⟨m, s1, hS, hh, hl, hlog⟩ := key
  have hs2 : ∀ h, (acSetContext fetch s cid eid none false).handler = some h →
      h.snapshot = none := by
    intro h hh2
    rw [hS] at hh2
    exact hs h (hh ▸ hh2)
  obtain ⟨r1, r2, r3, r4⟩ := reads_none_of_no_snapshot _ hs2
  refine ⟨⟨m, by rw [hS]; simp [acLog, hlog]⟩, by rw [hS]; simpa [acLog] using hh,
          by rw [hS]; simpa [acLog] using hl, r1, r2, r3, r4⟩

/-- Witness for C2 at the facade state after a successful `init` (handler
present, no snapshot loaded). -/
theorem c2_witness :
    (∀ h, (acInit acFresh (some "us-south") (some "guid-value") (some "apikey-value")).handler =
        some h → h.snapshot = none) ∧
    ((∃ m, (acSetContext (fun _ => none)
        (acInit acFresh (some "us-south") (some "guid-value") (some "apikey-value"))
        (some "collection") (some "env") none false).logs =
        (acInit acFresh (some "us-south") (some "guid-value") (some "apikey-value")).logs ++ [m]) ∧
     (acSetContext (fun _ => none)
        (acInit acFresh (some "us-south") (some "guid-value") (some "apikey-value"))
        (some "collection") (some "env") none false).handler =
       (acInit acFresh (some "us-south") (some "guid-value") (some "apikey-value")).handler ∧
     (acSetContext (fun _ => none)
        (acInit acFresh (some "us-south") (some "guid-value") (some "apikey-value"))
        (some "collection") (some "env") none false).loadCalls =
       (acInit acFresh (some "us-south") (some "guid-value") (some "apikey-value")).loadCalls ∧
     (∀ fid, (acGetFeature (acSetContext (fun _ => none)
        (acInit acFresh (some "us-south") (some "guid-value") (some "apikey-value"))
        (some "collection") (some "env") none false) fid).2 = none) ∧
     (acGetFeatures (acSetContext (fun _ => none)
        (acInit acFresh (some "us-south") (some "guid-value") (some "apikey-value"))
        (some "collection") (some "env") none false)).2 = none ∧
     (∀ pid, (acGetProperty (acSetContext (fun _ => none)
        (acInit acFresh (some "us-south") (some "guid-value") (some "apikey-value"))
        (some "collection") (some "env") none false) pid).2 = none) ∧
     (acGetProperties (acSetContext (fun _ => none)
        (acInit acFresh (some "us-south") (some "guid-value") (some "apikey-value"))
        (some "collection") (some "env") none false)).2 = none) :=
  ⟨fun h hh => by
      have : h = CHState.fresh := by
        simpa [acInit, acSetupHandler, acFresh, validate_string] using hh.symm
      simp [this, CHState.fresh],
   c2_set_context_no_file (fun _ => none)
     (acInit acFresh (some "us-south") (some "guid-value") (some "apikey-value"))
     (some "collection") (some "env")
     (fun h hh => by
       have : h = CHState.fresh := by
         simpa [acInit, acSetupHandler, acFresh, validate_string] using hh.symm
       simp [this, CHState.fresh])⟩

/-- The facade states reachable from a fresh `AppConfiguration` object by
any sequence of public calls (each call runs to completion). -/
inductive acReachable (fetch : CHState → Option Snapshot) : AppConfigState → Prop where
  | start : acReachable fetch acFresh
  | doInit (s : AppConfigState) (r g a : Option String) :
      acReachable fetch s → acReachable fetch (acInit s r g a)
  | doSetContext (s : AppConfigState) (cid eid file : Option String) (live : Bool) :
      acReachable fetch s → acReachable fetch (acSetContext fetch s cid eid file live)
  | doFetch (s : AppConfigState) :
      acReachable fetch s → acReachable fetch (acFetchConfigurations fetch s)
  | doGetFeature (s : AppConfigState) (fid : String) :
      acReachable fetch s → acReachable fetch (acGetFeature s fid).1
  | doGetFeatures (s : AppConfigState) :
      acReachable fetch s → acReachable fetch (acGetFeatures s).1
  | doGetProperty (s : AppConfigState) (pid : String) :
      acReachable fetch s → acReachable fetch (acGetProperty s pid).1
  | doGetProperties (s : AppConfigState) :
      acReachable fetch s → acReachable fetch (acGetProperties s).1

/-- Python `__load_data_now` leaves the loading flag clear when it was clear. -/
theorem acLoadDataNow_not_loading (fetch : CHState → Option Snapshot)
    (s : AppConfigState) (h : s.is_loading = false) :
    (acLoadDataNow fetch s).is_loading = false := by
  simp [acLoadDataNow, h]

/-- Between public calls the loading flag of a reachable facade state is
always clear: every call that sets it clears it again before returning. -/
theorem acReachable_not_loading (fetch : CHState → Option Snapshot)
    (s : AppConfigState) (h : acReachable fetch s) : s.is_loading = false := by
  induction h with
  | start => rfl
  | doInit s r g a _ ih =>
    unfold acInit
    split
    · exact ih
    · split
      · exact ih
      · split
        · exact ih
        · rfl
  | doSetContext s cid eid file live _ ih =>
    unfold acSetContext
    split
    · exact ih
    · split
      · exact ih
      · split
        · exact ih
        · split
          · exact ih
          · exact acLoadDataNow_not_loading fetch _ ih
  | doFetch s _ ih =>
    unfold acFetchConfigurations
    split
    · exact acLoadDataNow_not_loading fetch _ ih
    · exact ih
  | doGetFeature s fid _ ih =>
    unfold acGetFeature
    split <;> exact ih
  | doGetFeatures s _ ih =>
    unfold acGetFeatures
    split <;> exact ih
  | doGetProperty s pid _ ih =>
    unfold acGetProperty
    split <;> exact ih
  | doGetProperties s _ ih =>
    unfold acGetProperties
    split <;> exact ih

/-- The facade state after a successful `init` followed by a `set_context`
call that passes id validation but aborts at the configuration-file check
(`live_config_update_enabled=False`, `configuration_file=None`): line 153
has already set `__is_initialized_configuration`, yet the update source was
never bound. -/
def c8FailState : AppConfigState :=
  acSetContext (fun _ => none)
    (acInit acFresh (some "us-south") (some "guid-value") (some "apikey-value"))
    (some "collection") (some "env") none false

/-- C8 counterexample: at `c8FailState` the `set_context` call did *not*
complete successfully — the handler still has its fresh, unbound context
(`contextSet = false`) and the call aborted logging the
configuration-file error — yet `fetch_configurations` triggers a full
`load_data` cycle there instead of the claimed logged no-op, because line
153 of appconfiguration.py sets `__is_initialized_configuration` before
the file check fails.  This refutes the claim's only-if direction and its
`otherwise` clause. -/
theorem c8_counterexample :
    c8FailState.handler = some CHState.fresh ∧
    CHState.fresh.contextSet = false ∧
    c8FailState.logs = [CONFIGURATION_FILE_NOT_FOUND_ERROR] ∧
    (acFetchConfigurations (fun _ => none) c8FailState).loadCalls =
      c8FailState.loadCalls + 1 ∧
    (acFetchConfigurations (fun _ => none) c8FailState).logs = c8FailState.logs := by
  decide

/-- C8 (amended): on every reachable facade state, `fetch_configurations`
triggers exactly one `load_data` cycle exactly when both readiness flags
(`__is_initialized` and `__is_initialized_configuration`) are set — `init`
sets the first on successful validation, and any `set_context` call that
passes id validation sets the second, even one that then fails the
configuration-file check —; otherwise it only appends the collection-init
error to the log, leaving all other state unchanged. -/
theorem c8_fetch_configurations (fetch : CHState → Option Snapshot)
    (s : AppConfigState) (h : acReachable fetch s) :
    ((s.isInitDone = true ∧ s.isContextDone = true) ↔
       (acFetchConfigurations fetch s).loadCalls = s.loadCalls + 1) ∧
    (¬(s.isInitDone = true ∧ s.isContextDone = true) →
       acFetchConfigurations fetch s = acLog s COLLECTION_INIT_ERROR) := by
  have hl : s.is_loading = false := acReachable_not_loading fetch s h
  have hside : ¬(s.isInitDone = true ∧ s.isContextDone = true) →
      acFetchConfigurations fetch s = acLog s COLLECTION_INIT_ERROR := by
    intro hflags
    have hb : (s.isInitDone && s.isContextDone) = false := by
      cases hI : s.isInitDone <;> cases hC : s.isContextDone <;> simp_all
    simp [acFetchConfigurations, hb]
  refine ⟨⟨fun hf => ?_, fun hcount => ?_⟩, hside⟩
  · obtain ⟨h1, h2⟩ := hf
    simp [acFetchConfigurations, h1, h2, acLoadDataNow, hl]
  · by_contra hflags
    rw [hside hflags] at hcount
    simp [acLog] at hcount

/-- A reachable facade state with both readiness flags set: successful
`init` followed by successful `set_context` (local file, live updates off). -/
def c8WitState : AppConfigState :=
  acSetContext (fun _ => none)
    (acInit acFresh (some "us-south") (some "guid-value") (some "apikey-value"))
    (some "collection") (some "env") (some "file.json") false

/-- Witness for C8 at a concrete reachable state with both flags set. -/
theorem c8_witness :
    acReachable (fun _ => none) c8WitState ∧
    (((c8WitState.isInitDone = true ∧ c8WitState.isContextDone = true) ↔
        (acFetchConfigurations (fun _ => none) c8WitState).loadCalls =
          c8WitState.loadCalls + 1) ∧
     (¬(c8WitState.isInitDone = true ∧ c8WitState.isContextDone = true) →
        acFetchConfigurations (fun _ => none) c8WitState =
          acLog c8WitState COLLECTION_INIT_ERROR)) :=
  ⟨acReachable.doSetContext _ (some "collection") (some "env") (some "file.json") false
     (acReachable.doInit _ (some "us-south") (some "guid-value") (some "apikey-value")
        acReachable.start),
   c8_fetch_configurations (fun _ => none) c8WitState
     (acReachable.doSetContext _ (some "collection") (some "env") (some "file.json") false
        (acReachable.doInit _ (some "us-south") (some "guid-value") (some "apikey-value")
           acReachable.start))⟩

/-- The in-flight view of the facade's load path: the `__is_loading` flag
together with the number of `ConfigurationHandler.load_data` cycles
currently executing (`inFlight`).  This refines `__load_data_now`
(appconfiguration.py lines 177-182) to expose the state *during* a load,
where reentrant calls (e.g. from a change listener) can occur. -/
structure LoadState where
  is_loading : Bool
  inFlight : Nat
  deriving Repr, DecidableEq

/-- A call to `__load_data_now` (lines 177-182): when a load is in flight
the call returns at once (lines 178-179); otherwise it sets the flag and
enters `ConfigurationHandler.load_data` (lines 180-181), which is then in
flight. -/
def requestLoad (s : LoadState) : LoadState :=
  if s.is_loading then s
  else { is_loading := true, inFlight := s.inFlight + 1 }

/-- The in-flight `load_data` cycle returns and `__load_data_now` clears
the flag (line 182). -/
def finishLoad (s : LoadState) : LoadState :=
  { is_loading := false, inFlight := s.inFlight - 1 }

/-- Load states reachable from the idle initial state by load requests and
load completions (a completion only happens while a load is in flight). -/
inductive ReachableLoad : LoadState → Prop where
  | start : ReachableLoad { is_loading := false, inFlight := 0 }
  | request (s : LoadState) : ReachableLoad s → ReachableLoad (requestLoad s)
  | finish (s : LoadState) : ReachableLoad s → s.is_loading = true →
      ReachableLoad (finishLoad s)

/-- In every reachable load state the in-flight count is fixed by the flag. -/
theorem reachableLoad_invariant (s : LoadState) (h : ReachableLoad s) :
    s.inFlight = (if s.is_loading then 1 else 0) := by
  induction h with
  | start => rfl
  | request s _ ih =>
    unfold requestLoad
    cases hl : s.is_loading with
    | false => simp [hl] at ih; simp [hl, ih]
    | true => simp [hl] at ih ⊢; simpa [hl] using ih
  | finish s _ hl ih =>
    rw [hl] at ih
    simp [finishLoad, ih]

/-- C6: at every reachable load state at most one fetch-parse-replace cycle
is in flight, and while one is in flight any further `__load_data_now`
request returns immediately with the state unchanged (no second fetch is
started). -/
theorem c6_load_dedup (s : LoadState) (h : ReachableLoad s) :
    s.inFlight ≤ 1 ∧ (s.is_loading = true → requestLoad s = s) := by
  have hinv := reachableLoad_invariant s h
  constructor
  · rw [hinv]; split <;> simp
  · intro hl; simp [requestLoad, hl]

/-- Witness for C6 at the state with one load in flight (reached by one
request from the idle state). -/
theorem c6_witness :
    ReachableLoad { is_loading := true, inFlight := 1 } ∧
    (({ is_loading := true, inFlight := 1 } : LoadState).inFlight ≤ 1 ∧
     (({ is_loading := true, inFlight := 1 } : LoadState).is_loading = true →
        requestLoad { is_loading := true, inFlight := 1 } =
          { is_loading := true, inFlight := 1 })) :=
  ⟨ReachableLoad.request _ ReachableLoad.start,
   c6_load_dedup _ (ReachableLoad.request _ ReachableLoad.start)⟩

/-- The payload that `prepare_api_request` hands to
`BaseService.prepare_request`: `empty` for `data=None`, `rawStr`/`rawDict`
for data passed through untouched, `jsonOf d` for `json.dumps(d)` applied
to the dict `d` (the serializer of the external `json` module is kept
symbolic). -/
inductive SentPayload where
  | empty : SentPayload
  | rawStr : String → SentPayload
  | rawDict : PyDict → SentPayload
  | jsonOf : PyDict → SentPayload
  deriving Repr, DecidableEq

/-- Python `APIManager.__remove_null_values` (api_manager.py lines 84-95): drop
every key mapped to `None`, keep everything else unchanged and in order. -/
def remove_null_values (dictionary : PyDict) : PyDict :=
  dictionary.filter (fun kv => kv.2 != PyValue.pyNone)

/-- The `User-Agent` value built from `config_constants.SDK_NAME` and the
package version (both outside the given sources; the exact text is
immaterial to the claims). -/
def userAgentValue : String := "appconfiguration-python-sdk/release"

/-- The data/header selection of the preparation prefix of
`APIManager.prepare_api_request` (api_manager.py lines 62-67): `if data and
isinstance(data, dict)` is true only for a *non-empty* dict (an empty dict
is falsy in Python), in which case null values are removed, the
`Content-Type` and `User-Agent` headers are set and the dict is
JSON-serialized; all other data is passed through with no headers.  Whether
`json.dumps` itself succeeds on the filtered dict is modelled separately by
`payloadSerializes`, since the line-67 call sits *outside* the `try` block
and its `TypeError` escapes to the caller. -/
def preparePayload (data : Option (String ⊕ PyDict)) :
    SentPayload × List (String × String) :=
  match data with
  | none => (SentPayload.empty, [])
  | some (Sum.inl s) => (SentPayload.rawStr s, [])
  | some (Sum.inr d) =>
    if d = [] then (SentPayload.rawDict d, [])
    else (SentPayload.jsonOf (remove_null_values d),
          [("Content-Type", "application/json"), ("User-Agent", userAgentValue)])

/-- The `DetailedResponse` record of `ibm_cloud_sdk_core` (an external
collaborator), restricted to the fields `prepare_api_request` sets; its
constructor defaults `response` and `headers` to `None`. -/
structure DetailedResponse where
  status_code : Option Int
  response : Option PyValue
  headers : Option (List (String × String))
  deriving Repr, DecidableEq

/-- Outcome of the underlying `prepare_request`/`send` pair inside the
`try` block (api_manager.py lines 69-75): a response, an `ApiException`
carrying its HTTP code, or any other exception carrying its message. -/
inductive RequestOutcome where
  | success : DetailedResponse → RequestOutcome
  | apiException : Int → RequestOutcome
  | otherException : String → RequestOutcome
  deriving Repr, DecidableEq

mutual
/-- Whether Python `json.dumps` accepts this value: `objDefault` (the class
`object`) is not JSON-serializable and makes `dumps` raise `TypeError`;
the JSON scalars are accepted, a list is accepted iff its elements are. -/
def PyValue.jsonSerializable : PyValue → Bool
  | PyValue.pyNone => true
  | PyValue.bool _ => true
  | PyValue.str _ => true
  | PyValue.int _ => true
  | PyValue.list l => PyList.jsonSerializable l
  | PyValue.objDefault => false

/-- Elementwise `PyValue.jsonSerializable` over a Python list. -/
def PyList.jsonSerializable : PyList → Bool
  | PyList.nil => true
  | PyList.cons v l => PyValue.jsonSerializable v && PyList.jsonSerializable l
end

/-- The message of the `TypeError` that `json.dumps` raises on a
non-serializable value (api_manager.py line 67, outside the `try` block). -/
def JSON_TYPE_ERROR : String := "TypeError: Object of type object is not JSON serializable"

/-- Whether the preparation prefix of `prepare_api_request` completes
without raising: `json.dumps` runs only on a *non-empty* dict (after
`__remove_null_values`), and raises `TypeError` iff a remaining value is
not JSON-serializable; `None`, string and empty-dict data never reach
`dumps`. -/
def payloadSerializes : Option (String ⊕ PyDict) → Bool
  | some (Sum.inr d) =>
    if d = [] then true
    else (remove_null_values d).all (fun kv => kv.2.jsonSerializable)
  | _ => true

/-- Python `APIManager.prepare_api_request(method, url, data)` (api_manager.py
lines 48-82), with the network send abstracted as `send`.  The preparation
prefix (lines 62-67) runs *before* the `try` block begins at line 69, so a
`TypeError` from `json.dumps` on a non-serializable dict value propagates
to the caller: this is the `Except.error` result.  Otherwise the result is
the returned `DetailedResponse` together with the messages logged during
the call: an `ApiException` is converted to a `DetailedResponse` with the
exception's code and `None` response/headers (lines 76-79); any other
exception is logged and converted to status code 400 (lines 80-82). -/
def prepare_api_request
    (send : String → String → List (String × String) → SentPayload → RequestOutcome)
    (method url : String) (data : Option (String ⊕ PyDict)) :
    Except String (DetailedResponse × List String) :=
  if payloadSerializes data then
    let hp := preparePayload data
    match send method url hp.2 hp.1 with
    | RequestOutcome.success r => Except.ok (r, [])
    | RequestOutcome.apiException code =>
      Except.ok ({ status_code := some code, response := none, headers := none }, [])
    | RequestOutcome.otherException msg =>
      Except.ok ({ status_code := some 400, response := none, headers := none },
                 ["Error in service API call " ++ msg])
  else
    Except.error JSON_TYPE_ERROR

/-- C7 counterexample: `prepare_api_request` *can* propagate an exception.
For a dict payload carrying a non-serializable value (the class `object`),
the `json.dumps` call at api_manager.py line 67 — which runs before the
`try` block starting at line 69 — raises `TypeError` to the caller, for
every `send`: here the call evaluates to the propagated exception instead
of a `DetailedResponse`. -/
theorem c7_counterexample :
    prepare_api_request (fun _ _ _ _ => RequestOutcome.apiException 404)
      "GET" "https://host/config" (some (Sum.inr [("key", PyValue.objDefault)])) =
      Except.error JSON_TYPE_ERROR := by
  rfl

/-- C7 (amended): for every method, url and data argument whose payload
serializes (any `None` or string data, and any dict whose values remaining
after `None`-removal are JSON-serializable), `prepare_api_request`
propagates no exception: it returns a result, mapping an `ApiException`
from the underlying request to a `DetailedResponse` with the exception's
code and `None` response and headers, and any other exception to a logged
message plus a `DetailedResponse` with status code 400. -/
theorem c7_prepare_api_request_no_raise
    (send : String → String → List (String × String) → SentPayload → RequestOutcome)
    (method url : String) (data : Option (String ⊕ PyDict))
    (hser : payloadSerializes data = true) :
    (∃ r, prepare_api_request send method url data = Except.ok r) ∧
    (∀ code, send method url (preparePayload data).2 (preparePayload data).1 =
        RequestOutcome.apiException code →
      prepare_api_request send method url data =
        Except.ok ({ status_code := some code, response := none, headers := none }, [])) ∧
    (∀ msg, send method url (preparePayload data).2 (preparePayload data).1 =
        RequestOutcome.otherException msg →
      prepare_api_request send method url data =
        Except.ok ({ status_code := some 400, response := none, headers := none },
                   ["Error in service API call " ++ msg])) ∧
    (∀ r, send method url (preparePayload data).2 (preparePayload data).1 =
        RequestOutcome.success r →
      prepare_api_request send method url data = Except.ok (r, [])) := by
  refine ⟨?_, fun code hsend => by simp [prepare_api_request, hser, hsend],
          fun msg hsend => by simp [prepare_api_request, hser, hsend],
          fun r hsend => by simp [prepare_api_request, hser, hsend]⟩
  cases hs : send method url (preparePayload data).2 (preparePayload data).1 with
  | success r => exact ⟨(r, []), by simp [prepare_api_request, hser, hs]⟩
  | apiException code =>
    exact ⟨({ status_code := some code, response := none, headers := none }, []),
           by simp [prepare_api_request, hser, hs]⟩
  | otherException msg =>
    exact ⟨({ status_code := some 400, response := none, headers := none },
            ["Error in service API call " ++ msg]),
           by simp [prepare_api_request, hser, hs]⟩

/-- Witness for C7: serializable data (`None`) and a send that raises
`ApiException(404)`. -/
theorem c7_witness :
    payloadSerializes none = true ∧
    ((fun _ _ _ _ => RequestOutcome.apiException 404 :
        String → String → List (String × String) → SentPayload → RequestOutcome)
       "GET" "https://host/config"
       (preparePayload none).2 (preparePayload none).1 =
      RequestOutcome.apiException 404) ∧
    prepare_api_request (fun _ _ _ _ => RequestOutcome.apiException 404)
      "GET" "https://host/config" none =
      Except.ok ({ status_code := some 404, response := none, headers := none }, []) :=
  ⟨rfl, rfl,
   (c7_prepare_api_request_no_raise (fun _ _ _ _ => RequestOutcome.apiException 404)
      "GET" "https://host/config" none rfl).2.1 404 rfl⟩

/-- C9 counterexample: for the empty dictionary the claim fails — the guard
`if data and isinstance(data, dict)` is false (an empty dict is falsy), so
the dict is passed through unserialized and no `Content-Type` header is
added. -/
theorem c9_counterexample :
    ¬ ((preparePayload (some (Sum.inr ([] : PyDict)))).1 =
         SentPayload.jsonOf (remove_null_values []) ∧
       ("Content-Type", "application/json") ∈
         (preparePayload (some (Sum.inr ([] : PyDict)))).2) := by
  decide

/-- C9 (amended): for every *non-empty* dictionary payload `d`,
`prepare_api_request` sends the JSON serialization of `d` restricted to the
keys whose values are not `None` (each `None`-valued key removed, every
other pair kept unchanged) with `Content-Type: application/json`; a string
payload is passed through unchanged with no headers; the empty dictionary
is passed through unchanged with no headers. -/
theorem c9_payload_preparation (d : PyDict) (hd : d ≠ []) (s : String) :
    preparePayload (some (Sum.inr d)) =
      (SentPayload.jsonOf (remove_null_values d),
       [("Content-Type", "application/json"), ("User-Agent", userAgentValue)]) ∧
    (∀ k v, (k, v) ∈ remove_null_values d ↔ ((k, v) ∈ d ∧ v ≠ PyValue.pyNone)) ∧
    preparePayload (some (Sum.inl s)) = (SentPayload.rawStr s, []) ∧
    preparePayload (some (Sum.inr ([] : PyDict))) =
      (SentPayload.rawDict [], []) := by
  refine ⟨by simp [preparePayload, hd], fun k v => ?_, rfl, rfl⟩
  simp [remove_null_values, List.mem_filter, bne_iff_ne]

/-- Witness for C9 at a concrete dictionary with one `None`-valued key. -/
theorem c9_witness :
    (([("a", PyValue.pyNone), ("b", PyValue.int 1)] : PyDict) ≠ []) ∧
    (preparePayload (some (Sum.inr [("a", PyValue.pyNone), ("b", PyValue.int 1)])) =
       (SentPayload.jsonOf (remove_null_values [("a", PyValue.pyNone), ("b", PyValue.int 1)]),
        [("Content-Type", "application/json"), ("User-Agent", userAgentValue)]) ∧
     (∀ k v, (k, v) ∈ remove_null_values [("a", PyValue.pyNone), ("b", PyValue.int 1)] ↔
        ((k, v) ∈ ([("a", PyValue.pyNone), ("b", PyValue.int 1)] : PyDict) ∧
         v ≠ PyValue.pyNone)) ∧
     preparePayload (some (Sum.inl "raw-body")) = (SentPayload.rawStr "raw-body", []) ∧
     preparePayload (some (Sum.inr ([] : PyDict))) = (SentPayload.rawDict [], [])) :=
  ⟨by decide,
   c9_payload_preparation [("a", PyValue.pyNone), ("b", PyValue.int 1)] (by decide) "raw-body"⟩

/-- Message `config_messages.SINGLETON_EXCEPTION` (the message passed to the
exception raised by `AppConfiguration.__init__` on a second construction;
the module is outside the given sources). -/
def SINGLETON_EXCEPTION : String :=
  "class must be initialized using the get_instance() method."

/-- The class-level state behind the `AppConfiguration` singleton: the
`AppConfiguration.__instance` class attribute as the object id it refers to
(`none` before any construction) plus a supply of fresh object ids. -/
structure SingletonState where
  current : Option Nat
  next : Nat
  deriving Repr, DecidableEq

/-- Python `AppConfiguration.__init__` (appconfiguration.py lines 58-71): raise
when an instance already exists, otherwise create a fresh object and store
it in `AppConfiguration.__instance`. -/
def acConstruct (s : SingletonState) : Except String (SingletonState × Nat) :=
  match s.current with
  | some _ => Except.error ("AppConfiguration " ++ SINGLETON_EXCEPTION)
  | none => Except.ok ({ current := some s.next, next := s.next + 1 }, s.next)

/-- Python `AppConfiguration.get_instance` (lines 42-47): return the stored
instance, or construct one (the constructor cannot raise here, since
`__instance` is `None` on this branch) and return it. -/
def acGetInstance (s : SingletonState) : SingletonState × Nat :=
  match s.current with
  | some i => (s, i)
  | none => ({ current := some s.next, next := s.next + 1 }, s.next)

/-- C10: two consecutive `get_instance` calls return the same object;
`get_instance` always returns exactly the object stored in
`AppConfiguration.__instance`; and constructing `AppConfiguration` directly
while an instance exists raises instead of creating a second instance. -/
theorem c10_singleton (s : SingletonState) :
    (acGetInstance (acGetInstance s).1).2 = (acGetInstance s).2 ∧
    (acGetInstance s).1.current = some (acGetInstance s).2 ∧
    (∀ i, s.current = some i →
       acConstruct s = Except.error ("AppConfiguration " ++ SINGLETON_EXCEPTION)) := by
  cases hc : s.current with
  | none => exact ⟨by simp [acGetInstance, hc], by simp [acGetInstance, hc],
                   fun i hi => Option.noConfusion hi⟩
  | some i => exact ⟨by simp [acGetInstance, hc], by simp [acGetInstance, hc],
                     fun j hj => by simp [acConstruct, hc]⟩

/-- Witness for C10 at the class state where instance 0 exists. -/
theorem c10_witness :
    (({ current := some 0, next := 1 } : SingletonState).current = some 0) ∧
    ((acGetInstance (acGetInstance { current := some 0, next := 1 }).1).2 =
       (acGetInstance { current := some 0, next := 1 }).2 ∧
     (acGetInstance { current := some 0, next := 1 }).1.current =
       some (acGetInstance { current := some 0, next := 1 }).2 ∧
     acConstruct { current := some 0, next := 1 } =
       Except.error ("AppConfiguration " ++ SINGLETON_EXCEPTION)) :=
  ⟨rfl,
   (c10_singleton { current := some 0, next := 1 }).1,
   (c10_singleton { current := some 0, next := 1 }).2.1,
   (c10_singleton { current := some 0, next := 1 }).2.2 0 rfl⟩
